import Mathlib

/-!
Shallow embedding of the decision/classification pipeline and the closed-form
soil-springs stress calculation of the EMPCO repository.

Sources embedded here:
* `slope_stability_automation.py` — `SoilLayer`, `SlopeConfiguration`,
  `SlopeAnalysisResult`, `_requires_detailed_analysis`, `_get_analysis_priority`;
* `soil_springs_integration.py` — `convert_slope_to_soil_params`,
  `_get_priority_level`;
* `efficient_static_values_calculator.py` — `calculate_soil_springs_results`
  (split below into the raw computation and the rounded returned record) and
  `generate_combinations_with_calculations` (its combination counting and
  cartesian-product materialization).

Machine floats are modelled as real numbers; Python `round(x, 2)` is modelled
as `round (100 * x) / 100` (round-half-even and round-half-up agree away from
exact ties, and all concrete inputs used below stay away from ties).
Python f-string provenance labels, which interpolate a float, are modelled by
the inductive `SoilTypeTag` carrying the interpolated name and depth.
-/

namespace EMPCO

noncomputable section

/-- `SoilLayer` dataclass from `slope_stability_automation.py`. -/
structure SoilLayer where
  name : String
  unit_weight : ℝ
  cohesion_total : ℝ
  cohesion_effective : ℝ
  friction_angle : ℝ
  thickness : ℝ

/-- `SlopeConfiguration` dataclass (the `geometry` field is irrelevant to the
claims in scope and is omitted; no embedded function reads it). -/
structure SlopeConfiguration where
  config_id : String
  soil_layers : List SoilLayer
  groundwater_depth : ℝ

/-- `SlopeAnalysisResult` dataclass (the opaque `critical_slip_surface` dict is
omitted; no embedded function reads it). -/
structure SlopeAnalysisResult where
  config_id : String
  total_stress_fos : ℝ
  effective_stress_fos : ℝ
  requires_detailed_analysis : Bool

/-- Model of the `soil_type` provenance strings built by
`convert_slope_to_soil_params`: the four f-string/label shapes of the source,
carrying the interpolated layer name and depth. -/
inductive SoilTypeTag where
  | defaultSoil
  | atDepth (name : String) (depth : ℝ)
  | extrapolated (name : String) (depth : ℝ)
  | layerName (name : String)
  | weightedAverage (desc : String)

/-- `SoilSpringParameters` dataclass from `soil_springs_integration.py`. -/
structure SoilSpringParameters where
  friction_angle : ℝ
  cohesion : ℝ
  unit_weight : ℝ
  soil_type : SoilTypeTag

/-- The layer walk inside `convert_slope_to_soil_params` (lines 239–249):
accumulate `current_depth` and return the first layer whose closed interval
`[current_depth, current_depth + thickness]` contains the target depth. -/
def layerWalk (d : ℝ) : List SoilLayer → ℝ → Option SoilLayer
  | [], _ => none
  | layer :: rest, current_depth =>
    if current_depth ≤ d ∧ d ≤ current_depth + layer.thickness then some layer
    else layerWalk d rest (current_depth + layer.thickness)

/-- `IntegratedAnalysisEngine.convert_slope_to_soil_params` from
`soil_springs_integration.py` (lines 211–286). -/
def convert_slope_to_soil_params (slope_config : SlopeConfiguration)
    (pipe_depth_of_cover : Option ℝ) : SoilSpringParameters :=
  match slope_config.soil_layers with
  | [] => ⟨30, 100, 125, SoilTypeTag.defaultSoil⟩
  | l0 :: rest =>
    match pipe_depth_of_cover with
    | some d =>
      match layerWalk d (l0 :: rest) 0 with
      | some layer =>
        ⟨layer.friction_angle, layer.cohesion_effective, layer.unit_weight,
          SoilTypeTag.atDepth layer.name d⟩
      | none =>
        let deepest_layer := (l0 :: rest).getLast (List.cons_ne_nil _ _)
        ⟨deepest_layer.friction_angle, deepest_layer.cohesion_effective,
          deepest_layer.unit_weight, SoilTypeTag.extrapolated deepest_layer.name d⟩
    | none =>
      let total_thickness := ((l0 :: rest).map SoilLayer.thickness).sum
      if total_thickness = 0 then
        ⟨l0.friction_angle, l0.cohesion_effective, l0.unit_weight,
          SoilTypeTag.layerName l0.name⟩
      else
        ⟨((l0 :: rest).map (fun l => l.friction_angle * l.thickness)).sum / total_thickness,
          ((l0 :: rest).map (fun l => l.cohesion_effective * l.thickness)).sum / total_thickness,
          ((l0 :: rest).map (fun l => l.unit_weight * l.thickness)).sum / total_thickness,
          SoilTypeTag.weightedAverage
            (String.intercalate ", " (((l0 :: rest).take 2).map SoilLayer.name))⟩

/-- Cumulative depth of the top of layer `i`: running sum of the thicknesses of
the layers above it. -/
def cumTop (layers : List SoilLayer) (i : ℕ) : ℝ :=
  ((layers.take i).map SoilLayer.thickness).sum

/-- Total thickness of a stratigraphy. -/
def totalThickness (layers : List SoilLayer) : ℝ :=
  (layers.map SoilLayer.thickness).sum

/-- Depth `d` lies in the closed cumulative interval of layer `i`. -/
def intervalContains (layers : List SoilLayer) (d : ℝ) (i : Fin layers.length) : Prop :=
  cumTop layers i ≤ d ∧ d ≤ cumTop layers i + (layers.get i).thickness

/-- `SlopeStabilityAnalyzer._requires_detailed_analysis` from
`slope_stability_automation.py` (lines 359–377). -/
def _requires_detailed_analysis (total_fos effective_fos : ℝ) : Bool :=
  let min_fos := min total_fos effective_fos
  if min_fos < 1.5 then true
  else if min_fos < 2.0 then true
  else false

/-- `SlopeStabilityAnalyzer._get_analysis_priority` from
`slope_stability_automation.py` (lines 478–489). -/
def _get_analysis_priority (result : SlopeAnalysisResult) : String :=
  let min_fos := min result.total_stress_fos result.effective_stress_fos
  if min_fos < 1.0 then "Critical"
  else if min_fos < 1.2 then "High"
  else if min_fos < 1.5 then "Medium"
  else "Low"

/-- `IntegratedAnalysisEngine._get_priority_level` from
`soil_springs_integration.py` (lines 423–437); `exceeds_allowable` is the value
read from the spring-results dict (default `False`). -/
def _get_priority_level (slope_result : SlopeAnalysisResult)
    (exceeds_allowable : Bool) : ℕ :=
  let min_fos := min slope_result.total_stress_fos slope_result.effective_stress_fos
  if min_fos < 1.0 ∨ exceeds_allowable then 1
  else if min_fos < 1.2 then 2
  else if min_fos < 1.5 then 3
  else 4

/-- The pipe-parameter inputs read (with defaults) at the top of
`calculate_soil_springs_results`; field defaults mirror the `.get` defaults. -/
structure PipeParams where
  pipe_od : ℝ := 16.0
  pipe_wt : ℝ := 0.375
  pipe_smys : String := "X-42"
  pipe_doc : ℝ := 10.0
  pipe_length : ℝ := 10.0
  pipe_coating : String := "Rough Steel"
  internal_pressure : ℝ := 1500
  pgd_path : String := "Parallel"

/-- The three numeric fields of a `soil_layer` dict read by
`calculate_soil_springs_results`. -/
structure SoilDict where
  friction_angle : ℝ
  cohesion : ℝ
  unit_weight : ℝ

/-- The `smys_values` lookup with its `.get(pipe_smys, 42000)` default
(lines 140–141 of `efficient_static_values_calculator.py`). -/
def smys_values (pipe_smys : String) : ℝ :=
  if pipe_smys = "X-42" then 42000
  else if pipe_smys = "X-52" then 52000
  else if pipe_smys = "X-60" then 60000
  else if pipe_smys = "X-65" then 65000
  else if pipe_smys = "X-70" then 70000
  else 42000

/-- `math.radians` as used by the source. -/
def radians (x : ℝ) : ℝ := x * Real.pi / 180

/-- The local variables computed by `calculate_soil_springs_results` before
its return statement builds the output dict. -/
structure SoilSpringsRaw where
  longitudinal_force : ℝ
  axial_stress : ℝ
  hoop_stress : ℝ
  allowable_stress : ℝ
  total_applied_stress : ℝ
  remaining_allowable : ℝ
  allowable_length : ℝ
  exceeds_allowable : String

/-- Body of `EfficientStaticValuesCalculator.calculate_soil_springs_results`
(`efficient_static_values_calculator.py`, lines 120–213): every local variable
as computed by the source, before output rounding. -/
def calculate_soil_springs_raw (p : PipeParams) (soil_layer : SoilDict) : SoilSpringsRaw :=
  let friction_angle := soil_layer.friction_angle
  let cohesion := soil_layer.cohesion
  let unit_weight := soil_layer.unit_weight
  let smys_psi := smys_values p.pipe_smys
  let pipe_od_ft := p.pipe_od / 12.0
  let outer_radius := p.pipe_od / 2.0
  let inner_radius := outer_radius - p.pipe_wt
  let pipe_area_sqin := 3.14159 * (outer_radius ^ 2 - inner_radius ^ 2)
  let kp := Real.tan (radians (45 + friction_angle / 2)) ^ 2
  let longitudinal_force :=
    if p.pgd_path = "Parallel" then
      let friction_coeff := Real.tan (radians friction_angle)
      let normal_stress := unit_weight * p.pipe_doc
      let adhesion_factor :=
        if cohesion > 0 then min 1.0 (0.5 * (1 + cohesion / 1000)) else 1.0
      (friction_coeff * normal_stress + adhesion_factor * cohesion) * 3.14159 * pipe_od_ft
    else
      let lateral_resistance_cohesion := cohesion * pipe_od_ft * 9.0
      let lateral_resistance_friction := 0.5 * unit_weight * p.pipe_doc ^ 2 * kp * pipe_od_ft
      lateral_resistance_cohesion + lateral_resistance_friction
  let axial_stress := longitudinal_force * p.pipe_length / pipe_area_sqin
  let hoop_stress := p.internal_pressure * inner_radius / p.pipe_wt
  let allowable_stress := 0.72 * smys_psi
  let total_applied_stress := axial_stress + 0.5 * hoop_stress
  let remaining_allowable := max 0 (allowable_stress - total_applied_stress)
  let allowable_length :=
    if longitudinal_force > 0 then
      let max_allowable_axial := allowable_stress - 0.5 * hoop_stress
      if max_allowable_axial > 0 then max_allowable_axial * pipe_area_sqin / longitudinal_force
      else 0
    else 1000
  let exceeds_allowable :=
    if total_applied_stress > allowable_stress then "Exceeds" else "Does Not Exceed"
  ⟨longitudinal_force, axial_stress, hoop_stress, allowable_stress,
    total_applied_stress, remaining_allowable, allowable_length, exceeds_allowable⟩

/-- Python `round(x, 2)` on the values the source puts in its returned dict. -/
def pyRound2 (x : ℝ) : ℝ := (round (100 * x) : ℤ) / 100

/-- The output section of the dict returned by `calculate_soil_springs_results`
(lines 226–231): the four numbers pass through `round(·, 2)`; the input and
soil echo fields of the dict are the unchanged inputs and are omitted. -/
structure SoilSpringsResults where
  longitudinal_force : ℝ
  axial_stress : ℝ
  remaining_allowable_stress : ℝ
  allowable_length : ℝ
  exceeds_allowable : String

/-- The returned record of `calculate_soil_springs_results`. -/
def calculate_soil_springs_results (p : PipeParams) (soil_layer : SoilDict) :
    SoilSpringsResults :=
  let r := calculate_soil_springs_raw p soil_layer
  ⟨pyRound2 r.longitudinal_force, pyRound2 r.axial_stress,
    pyRound2 r.remaining_allowable, pyRound2 r.allowable_length, r.exceeds_allowable⟩

end

/-- `itertools.product(*param_values)` as iterated by
`generate_combinations_with_calculations` (line 257): first axis outermost. -/
def itertools_product {α : Type} : List (List α) → List (List α)
  | [] => [[]]
  | values :: rest =>
    ((values.map fun v => (itertools_product rest).map fun combo => v :: combo)).flatten

/-- The `total_combinations` accumulation loop of
`generate_combinations_with_calculations` (lines 248–250). -/
def total_combinations_count {α : Type} (param_values : List (List α)) : ℕ :=
  param_values.foldl (fun acc values => acc * values.length) 1

/-- All-defaults pipe record: the `.get` fallback values of the source. -/
noncomputable def pipe_default : PipeParams := {}

/-- Concrete pipe input exercising the rounding of the returned axial stress:
`pipe_length` and `internal_pressure` are chosen so the full-precision total
applied stress equals the allowable stress exactly while the rounded axial
stress lands 0.004 psi above it. -/
noncomputable def pipe_ce : PipeParams :=
  { pipe_length := 450027 / 1024000, internal_pressure := 180839964 / 61000 }

/-- Cohesive soil (φ = 0°, c = 1000 psf, γ = 125 pcf). -/
noncomputable def soil_ce : SoilDict := ⟨0, 1000, 125⟩

/-- Cohesionless zero-friction soil (φ = 0°, c = 0, γ = 125 pcf): produces zero
longitudinal force in the Parallel direction. -/
noncomputable def soil_zero : SoilDict := ⟨0, 0, 125⟩

/-- Default pipe at 10000 psi internal pressure: hoop stress consumes the whole
allowable stress. -/
noncomputable def pipe_hp : PipeParams := { internal_pressure := 10000 }

/-- Three-layer stratigraphy with thicknesses 10, 20, 25 ft used to probe the
boundary convention of the depth lookup. -/
noncomputable def cfg3 : SlopeConfiguration :=
  ⟨"Config_0001",
    [⟨"Layer A", 120, 200, 100, 20, 10⟩,
     ⟨"Layer B", 122, 250, 150, 25, 20⟩,
     ⟨"Layer C", 125, 300, 200, 30, 25⟩], 30⟩

/-- Length of the materialized cartesian product. -/
theorem itertools_product_length {α : Type} (param_values : List (List α)) :
    (itertools_product param_values).length = (param_values.map List.length).prod := by
  induction param_values with
  | nil => simp [itertools_product]
  | cons values rest ih =>
    simp [itertools_product, List.length_flatten, List.map_map, Function.comp_def, ih,
      List.map_const', List.sum_replicate, smul_eq_mul]

/-- The source's running-product loop agrees with the product of lengths. -/
theorem total_combinations_count_eq {α : Type} (param_values : List (List α)) :
    total_combinations_count param_values = (param_values.map List.length).prod := by
  rw [total_combinations_count, List.prod_eq_foldl, List.foldl_map]

/-- C8: the combinator's reported total combination count equals the product of
the axis-list lengths, and the materialized list of per-combination records has
exactly that length (one record per element of the cartesian product). -/
theorem sweep_cardinality_product {α β : Type} (param_values : List (List α))
    (row : List α → β) (hne : ∀ vs ∈ param_values, vs ≠ []) :
    total_combinations_count param_values = (param_values.map List.length).prod ∧
    (itertools_product param_values).length = total_combinations_count param_values ∧
    ((itertools_product param_values).map row).length = total_combinations_count param_values := by
  refine ⟨total_combinations_count_eq _, ?_, ?_⟩
  · rw [itertools_product_length, total_combinations_count_eq]
  · rw [List.length_map, itertools_product_length, total_combinations_count_eq]

/-- C8 witness: a two-axis sweep with axis lengths 2 and 3. -/
theorem sweep_cardinality_product_witness :
    (∀ vs ∈ [[16, 20], [4, 6, 8]], vs ≠ []) ∧
    (total_combinations_count [[16, 20], [4, 6, 8]] =
        ([[16, 20], [4, 6, 8]].map List.length).prod ∧
      (itertools_product [[16, 20], [4, 6, 8]]).length =
        total_combinations_count [[16, 20], [4, 6, 8]] ∧
      ((itertools_product [[16, 20], [4, 6, 8]]).map List.sum).length =
        total_combinations_count [[16, 20], [4, 6, 8]]) := by
  refine ⟨by decide, ?_⟩
  exact sweep_cardinality_product [[16, 20], [4, 6, 8]] List.sum (by decide)

/-- C2: for finite non-negative Factor-of-Safety pairs, the screening classifier
flags detailed analysis exactly when `min total_fos effective_fos < 2.0` and
assigns the priority bands Critical `< 1.0`, High `[1.0, 1.2)`, Medium
`[1.2, 1.5)`, Low otherwise; in particular `(1.0, 1.0)` classifies High and
`(1.5, 1.5)` classifies Low, all band boundaries strict. -/
theorem classifier_threshold_bands (total_fos effective_fos : ℝ) (cid : String) (req : Bool)
    (ht : 0 ≤ total_fos) (he : 0 ≤ effective_fos) :
    (_requires_detailed_analysis total_fos effective_fos = true ↔
      min total_fos effective_fos < 2.0) ∧
    (_get_analysis_priority ⟨cid, total_fos, effective_fos, req⟩ = "Critical" ↔
      min total_fos effective_fos < 1.0) ∧
    (_get_analysis_priority ⟨cid, total_fos, effective_fos, req⟩ = "High" ↔
      (1.0 ≤ min total_fos effective_fos ∧ min total_fos effective_fos < 1.2)) ∧
    (_get_analysis_priority ⟨cid, total_fos, effective_fos, req⟩ = "Medium" ↔
      (1.2 ≤ min total_fos effective_fos ∧ min total_fos effective_fos < 1.5)) ∧
    (_get_analysis_priority ⟨cid, total_fos, effective_fos, req⟩ = "Low" ↔
      1.5 ≤ min total_fos effective_fos) ∧
    _get_analysis_priority ⟨cid, 1.0, 1.0, req⟩ = "High" ∧
    _get_analysis_priority ⟨cid, 1.5, 1.5, req⟩ = "Low" := by
  refine ⟨?_, ?_, ?_, ?_, ?_, ?_, ?_⟩
  · unfold _requires_detailed_analysis
    dsimp only
    set m := min total_fos effective_fos with hm
    split_ifs with h1 h2 <;> simp <;> linarith
  · unfold _get_analysis_priority
    dsimp only
    set m := min total_fos effective_fos with hm
    split_ifs with h1 h2 h3 <;> simp <;> linarith
  · unfold _get_analysis_priority
    dsimp only
    set m := min total_fos effective_fos with hm
    split_ifs with h1 h2 h3 <;> simp <;> intros <;>
      first | linarith | (constructor <;> linarith)
  · unfold _get_analysis_priority
    dsimp only
    set m := min total_fos effective_fos with hm
    split_ifs with h1 h2 h3 <;> simp <;> intros <;>
      first | linarith | (constructor <;> linarith)
  · unfold _get_analysis_priority
    dsimp only
    set m := min total_fos effective_fos with hm
    split_ifs with h1 h2 h3 <;> simp <;> linarith
  · unfold _get_analysis_priority
    norm_num
  · unfold _get_analysis_priority
    norm_num

/-- C2 witness: instantiation at `(1.0, 1.0)`. -/
theorem classifier_threshold_bands_witness :
    (0 : ℝ) ≤ 1.0 ∧
    _get_analysis_priority ⟨"Config_0001", 1.0, 1.0, true⟩ = "High" := by
  refine ⟨by norm_num, ?_⟩
  exact (classifier_threshold_bands 1.0 1.0 "Config_0001" true (by norm_num)
    (by norm_num)).2.2.2.2.2.1

/-- C9 counterexample: the screening classifier does not raise on a negative
Factor of Safety; at `total_fos = effective_fos = -1` it silently returns a
classification (detailed analysis required, priority Critical), contradicting
the claim that garbage FoS inputs fail loudly. -/
theorem classifier_garbage_input_counterexample :
    _requires_detailed_analysis (-1) (-1) = true ∧
    _get_analysis_priority ⟨"Config_0001", -1, -1, true⟩ = "Critical" := by
  constructor <;> norm_num [_requires_detailed_analysis, _get_analysis_priority]

/-- C9 (amended): the screening classifier contains no raise path; a negative
FoS pair is mapped through the same threshold comparisons, so any pair of
negative values yields `requires_detailed = true` and priority Critical rather
than an error. -/
theorem classifier_negative_fos_classified (total_fos effective_fos : ℝ)
    (cid : String) (req : Bool) (ht : total_fos < 0) (he : effective_fos < 0) :
    _requires_detailed_analysis total_fos effective_fos = true ∧
    _get_analysis_priority ⟨cid, total_fos, effective_fos, req⟩ = "Critical" := by
  have h1 : min total_fos effective_fos < 1.0 := by
    have := min_le_left total_fos effective_fos
    linarith
  constructor
  · unfold _requires_detailed_analysis
    rw [if_pos (by linarith)]
  · unfold _get_analysis_priority
    rw [if_pos h1]

/-- C9 witness for the amended claim: instantiation at `(-2, -3)`. -/
theorem classifier_negative_fos_classified_witness :
    (-2 : ℝ) < 0 ∧ (-3 : ℝ) < 0 ∧
    (_requires_detailed_analysis (-2) (-3) = true ∧
      _get_analysis_priority ⟨"Config_0002", -2, -3, false⟩ = "Critical") := by
  exact ⟨by norm_num, by norm_num,
    classifier_negative_fos_classified (-2) (-3) "Config_0002" false
      (by norm_num) (by norm_num)⟩

/-- C4: the aggregator's priority level is 1 iff `min_fos < 1.0` or the
pipeline exceedance flag is set, else 2 iff `min_fos < 1.2`, else 3 iff
`min_fos < 1.5`, else 4; in particular a set exceedance flag forces level 1
even when `min_fos ≥ 1.5`, where the slope-only classifier says Low. -/
theorem integrated_priority_level_spec (t e : ℝ) (cid : String) (req ex : Bool) :
    (_get_priority_level ⟨cid, t, e, req⟩ ex = 1 ↔ (min t e < 1.0 ∨ ex = true)) ∧
    (_get_priority_level ⟨cid, t, e, req⟩ ex = 2 ↔
      (¬(min t e < 1.0 ∨ ex = true) ∧ min t e < 1.2)) ∧
    (_get_priority_level ⟨cid, t, e, req⟩ ex = 3 ↔
      (¬(min t e < 1.0 ∨ ex = true) ∧ ¬min t e < 1.2 ∧ min t e < 1.5)) ∧
    (_get_priority_level ⟨cid, t, e, req⟩ ex = 4 ↔
      (¬(min t e < 1.0 ∨ ex = true) ∧ ¬min t e < 1.2 ∧ ¬min t e < 1.5)) ∧
    (ex = true → 1.5 ≤ min t e →
      _get_priority_level ⟨cid, t, e, req⟩ ex = 1 ∧
      _get_analysis_priority ⟨cid, t, e, req⟩ = "Low") := by
  refine ⟨?_, ?_, ?_, ?_, ?_⟩
  · unfold _get_priority_level
    dsimp only
    set m := min t e with hm
    split_ifs with h1 h2 h3 <;> simp_all
  · unfold _get_priority_level
    dsimp only
    set m := min t e with hm
    split_ifs with h1 h2 h3 <;> simp_all <;> intros <;> linarith
  · unfold _get_priority_level
    dsimp only
    set m := min t e with hm
    split_ifs with h1 h2 h3 <;> simp_all <;> intros <;>
      first | linarith | (constructor <;> linarith)
  · unfold _get_priority_level
    dsimp only
    set m := min t e with hm
    split_ifs with h1 h2 h3 <;> simp_all <;> intros <;>
      first | linarith | (constructor <;> linarith)
  · intro hex hm
    constructor
    · unfold _get_priority_level
      rw [if_pos (Or.inr hex)]
    · unfold _get_analysis_priority
      rw [if_neg (by push_neg; linarith), if_neg (by push_neg; linarith),
        if_neg (by push_neg; linarith)]

/-- C4 witness: the exceedance flag elevates a `min_fos = 1.8` pair to
level 1 while the slope-only classifier calls it Low. -/
theorem integrated_priority_level_spec_witness :
    (true = true) ∧ ((1.5 : ℝ) ≤ min 1.8 2.1) ∧
    (_get_priority_level ⟨"Config_0003", 1.8, 2.1, false⟩ true = 1 ∧
      _get_analysis_priority ⟨"Config_0003", 1.8, 2.1, false⟩ = "Low") := by
  refine ⟨rfl, by norm_num, ?_⟩
  exact (integrated_priority_level_spec 1.8 2.1 "Config_0003" false true).2.2.2.2
    rfl (by norm_num)

/-- Definitional reading of the flag field of the raw engine record. -/
theorem raw_exceeds_def (p : PipeParams) (s : SoilDict) :
    (calculate_soil_springs_raw p s).exceeds_allowable =
      if (calculate_soil_springs_raw p s).total_applied_stress >
          (calculate_soil_springs_raw p s).allowable_stress
      then "Exceeds" else "Does Not Exceed" := rfl

/-- Definitional reading of the total applied stress field. -/
theorem raw_total_applied_def (p : PipeParams) (s : SoilDict) :
    (calculate_soil_springs_raw p s).total_applied_stress =
      (calculate_soil_springs_raw p s).axial_stress +
        0.5 * (calculate_soil_springs_raw p s).hoop_stress := rfl

/-- Definitional reading of the hoop stress field. -/
theorem raw_hoop_def (p : PipeParams) (s : SoilDict) :
    (calculate_soil_springs_raw p s).hoop_stress =
      p.internal_pressure * (p.pipe_od / 2.0 - p.pipe_wt) / p.pipe_wt := rfl

/-- Definitional reading of the allowable stress field. -/
theorem raw_allowable_stress_def (p : PipeParams) (s : SoilDict) :
    (calculate_soil_springs_raw p s).allowable_stress =
      0.72 * smys_values p.pipe_smys := rfl

/-- Definitional reading of the longitudinal force field: the direction
branch of the source. -/
theorem raw_force_def (p : PipeParams) (s : SoilDict) :
    (calculate_soil_springs_raw p s).longitudinal_force =
      if p.pgd_path = "Parallel" then
        (Real.tan (radians s.friction_angle) * (s.unit_weight * p.pipe_doc) +
          (if s.cohesion > 0 then min 1.0 (0.5 * (1 + s.cohesion / 1000)) else 1.0) *
            s.cohesion) * 3.14159 * (p.pipe_od / 12.0)
      else
        s.cohesion * (p.pipe_od / 12.0) * 9.0 +
          0.5 * s.unit_weight * p.pipe_doc ^ 2 *
            Real.tan (radians (45 + s.friction_angle / 2)) ^ 2 * (p.pipe_od / 12.0) := rfl

/-- Definitional reading of the axial stress field. -/
theorem raw_axial_def (p : PipeParams) (s : SoilDict) :
    (calculate_soil_springs_raw p s).axial_stress =
      (calculate_soil_springs_raw p s).longitudinal_force * p.pipe_length /
        (3.14159 * ((p.pipe_od / 2.0) ^ 2 - (p.pipe_od / 2.0 - p.pipe_wt) ^ 2)) := rfl

/-- Definitional reading of the remaining allowable stress field. -/
theorem raw_remaining_def (p : PipeParams) (s : SoilDict) :
    (calculate_soil_springs_raw p s).remaining_allowable =
      max 0 ((calculate_soil_springs_raw p s).allowable_stress -
        (calculate_soil_springs_raw p s).total_applied_stress) := rfl

/-- Definitional reading of the allowable length field. -/
theorem raw_allowable_length_def (p : PipeParams) (s : SoilDict) :
    (calculate_soil_springs_raw p s).allowable_length =
      if (calculate_soil_springs_raw p s).longitudinal_force > 0 then
        if (calculate_soil_springs_raw p s).allowable_stress -
            0.5 * (calculate_soil_springs_raw p s).hoop_stress > 0 then
          ((calculate_soil_springs_raw p s).allowable_stress -
              0.5 * (calculate_soil_springs_raw p s).hoop_stress) *
            (3.14159 * ((p.pipe_od / 2.0) ^ 2 - (p.pipe_od / 2.0 - p.pipe_wt) ^ 2)) /
            (calculate_soil_springs_raw p s).longitudinal_force
        else 0
      else 1000 := rfl

/-- The returned record applies `round(·, 2)` to the raw numeric outputs and
passes the flag through. -/
theorem results_fields_def (p : PipeParams) (s : SoilDict) :
    calculate_soil_springs_results p s =
      ⟨pyRound2 (calculate_soil_springs_raw p s).longitudinal_force,
        pyRound2 (calculate_soil_springs_raw p s).axial_stress,
        pyRound2 (calculate_soil_springs_raw p s).remaining_allowable,
        pyRound2 (calculate_soil_springs_raw p s).allowable_length,
        (calculate_soil_springs_raw p s).exceeds_allowable⟩ := rfl

/-- C3: in the Parallel direction the engine's longitudinal force is
`(tan(radians φ)·γ·DOC + adhesion·c)·π·OD_ft` with adhesion factor 1 at zero
cohesion and `min 1 (0.5·(1 + c/1000))` otherwise (never exceeding 1), and in
the Perpendicular direction it is `c·OD_ft·9 + 0.5·γ·DOC²·Kp·OD_ft` with
`Kp = tan²(radians(45 + φ/2))`; `π` is the source's literal `3.14159` and
`OD_ft = pipe_od/12`. -/
theorem longitudinal_force_direction_formulas (p : PipeParams) (s : SoilDict)
    (hc : 0 ≤ s.cohesion) :
    (p.pgd_path = "Parallel" →
      (calculate_soil_springs_raw p s).longitudinal_force =
        (Real.tan (radians s.friction_angle) * (s.unit_weight * p.pipe_doc) +
          (if s.cohesion = 0 then 1 else min 1 (0.5 * (1 + s.cohesion / 1000))) *
            s.cohesion) * 3.14159 * (p.pipe_od / 12)) ∧
    (p.pgd_path = "Perpendicular" →
      (calculate_soil_springs_raw p s).longitudinal_force =
        s.cohesion * (p.pipe_od / 12) * 9 +
          0.5 * s.unit_weight * p.pipe_doc ^ 2 *
            Real.tan (radians (45 + s.friction_angle / 2)) ^ 2 * (p.pipe_od / 12)) ∧
    (if s.cohesion = 0 then (1 : ℝ) else min 1 (0.5 * (1 + s.cohesion / 1000))) ≤ 1 := by
  refine ⟨?_, ?_, ?_⟩
  · intro hpath
    unfold calculate_soil_springs_raw
    dsimp only
    rw [if_pos hpath]
    by_cases hc0 : s.cohesion = 0
    · rw [if_neg (by rw [hc0]; norm_num), if_pos hc0]
      norm_num
    · rw [if_pos (lt_of_le_of_ne hc (Ne.symm hc0)), if_neg hc0]
      norm_num
  · intro hpath
    unfold calculate_soil_springs_raw
    dsimp only
    rw [if_neg (by rw [hpath]; decide)]
    norm_num
  · by_cases hc0 : s.cohesion = 0
    · rw [if_pos hc0]
    · rw [if_neg hc0]
      exact min_le_left _ _

/-- C3 witness: instantiation at the default pipe (Parallel direction) and a
cohesionless soil. -/
theorem longitudinal_force_direction_formulas_witness :
    (0 : ℝ) ≤ (⟨30, 0, 125⟩ : SoilDict).cohesion ∧
    (({} : PipeParams).pgd_path = "Parallel" →
      (calculate_soil_springs_raw {} ⟨30, 0, 125⟩).longitudinal_force =
        (Real.tan (radians (⟨30, 0, 125⟩ : SoilDict).friction_angle) *
            ((⟨30, 0, 125⟩ : SoilDict).unit_weight * ({} : PipeParams).pipe_doc) +
          (if (⟨30, 0, 125⟩ : SoilDict).cohesion = 0 then 1
            else min 1 (0.5 * (1 + (⟨30, 0, 125⟩ : SoilDict).cohesion / 1000))) *
            (⟨30, 0, 125⟩ : SoilDict).cohesion) * 3.14159 *
          (({} : PipeParams).pipe_od / 12)) := by
  exact ⟨le_refl 0, (longitudinal_force_direction_formulas {} ⟨30, 0, 125⟩
    (le_refl 0)).1⟩

/-- C5 (amended): the exceedance flag always equals the defining inequality
recomputed from the engine's full-precision axial stress and the inputs
(`hoop = pressure·inner_radius/wall`, `allowable = 0.72·SMYS`), and the
returned record passes the flag through unchanged; recomputation from the
*rounded* returned axial stress can disagree within rounding distance of the
threshold (see the counterexample). -/
theorem exceedance_flag_full_precision_consistency (p : PipeParams) (s : SoilDict) :
    ((calculate_soil_springs_raw p s).exceeds_allowable = "Exceeds" ↔
      (calculate_soil_springs_raw p s).axial_stress +
          0.5 * (p.internal_pressure * (p.pipe_od / 2.0 - p.pipe_wt) / p.pipe_wt) >
        0.72 * smys_values p.pipe_smys) ∧
    (calculate_soil_springs_results p s).exceeds_allowable =
      (calculate_soil_springs_raw p s).exceeds_allowable := by
  constructor
  · rw [raw_exceeds_def, raw_total_applied_def, raw_hoop_def, raw_allowable_stress_def]
    split_ifs with h
    · simpa using h
    · simpa using h
  · rfl

/-- `round(·, 2)` of 1000 is 1000. -/
theorem pyRound2_thousand : pyRound2 1000 = 1000 := by
  rw [pyRound2, show (100 : ℝ) * 1000 = ((100000 : ℤ) : ℝ) by norm_num, round_intCast]
  norm_num

/-- `round(·, 2)` preserves non-negativity. -/
theorem pyRound2_nonneg {x : ℝ} (hx : 0 ≤ x) : 0 ≤ pyRound2 x := by
  rw [pyRound2]
  apply div_nonneg _ (by norm_num : (0 : ℝ) ≤ 100)
  rw [round_eq]
  exact_mod_cast Int.le_floor.mpr (by push_cast; linarith)

/-- C5 counterexample: at `pipe_ce`/`soil_ce` the full-precision total applied
stress equals the allowable stress exactly, so the returned flag says
"Does Not Exceed"; but the *returned* axial stress was rounded up to
100.01 psi, and recomputing `axial + 0.5·hoop > 0.72·SMYS` from the returned
field makes the inequality true — the flag and the recomputed inequality
disagree. -/
theorem exceedance_flag_rounding_counterexample :
    (calculate_soil_springs_results pipe_ce soil_ce).exceeds_allowable =
      "Does Not Exceed" ∧
    (calculate_soil_springs_results pipe_ce soil_ce).axial_stress +
        0.5 * (pipe_ce.internal_pressure *
          (pipe_ce.pipe_od / 2.0 - pipe_ce.pipe_wt) / pipe_ce.pipe_wt) >
      0.72 * smys_values pipe_ce.pipe_smys := by
  have hforce : (calculate_soil_springs_raw pipe_ce soil_ce).longitudinal_force =
      1000 * 3.14159 * (16.0 / 12.0) := by
    rw [raw_force_def]
    norm_num [pipe_ce, soil_ce, radians, Real.tan_zero, min_def]
  have haxial : (calculate_soil_springs_raw pipe_ce soil_ce).axial_stress =
      50003 / 500 := by
    rw [raw_axial_def, hforce]
    norm_num [pipe_ce]
  have hcond : ¬((calculate_soil_springs_raw pipe_ce soil_ce).axial_stress +
      0.5 * (calculate_soil_springs_raw pipe_ce soil_ce).hoop_stress >
      0.72 * smys_values pipe_ce.pipe_smys) := by
    rw [haxial, raw_hoop_def]
    norm_num [pipe_ce, smys_values]
  have hflag : (calculate_soil_springs_raw pipe_ce soil_ce).exceeds_allowable =
      "Does Not Exceed" := by
    rw [raw_exceeds_def, raw_total_applied_def, raw_allowable_stress_def, if_neg hcond]
  have hax_round : pyRound2 (50003 / 500 : ℝ) = 10001 / 100 := by
    rw [pyRound2, round_eq,
      show (100 : ℝ) * (50003 / 500) + 1 / 2 = 100011 / 10 by norm_num,
      show ⌊(100011 / 10 : ℝ)⌋ = 10001 by rw [Int.floor_eq_iff] <;> norm_num]
    norm_num
  constructor
  · exact hflag
  · show pyRound2 (calculate_soil_springs_raw pipe_ce soil_ce).axial_stress +
        0.5 * (pipe_ce.internal_pressure *
          (pipe_ce.pipe_od / 2.0 - pipe_ce.pipe_wt) / pipe_ce.pipe_wt) >
      0.72 * smys_values pipe_ce.pipe_smys
    rw [haxial, hax_round]
    norm_num [pipe_ce, smys_values]

/-- C6: the engine's numeric degeneracies are policy, not errors: non-positive
longitudinal force yields the fixed sentinel allowable length 1000 (also in the
returned record); positive force with exhausted allowable axial stress yields
allowable length 0; and the remaining allowable stress is clamped at 0 by
`max`, hence never negative (also after output rounding). -/
theorem numeric_degeneracy_handling (p : PipeParams) (s : SoilDict) :
    ((calculate_soil_springs_raw p s).longitudinal_force ≤ 0 →
      (calculate_soil_springs_raw p s).allowable_length = 1000 ∧
      (calculate_soil_springs_results p s).allowable_length = 1000) ∧
    (0 < (calculate_soil_springs_raw p s).longitudinal_force →
      (calculate_soil_springs_raw p s).allowable_stress -
          0.5 * (calculate_soil_springs_raw p s).hoop_stress ≤ 0 →
      (calculate_soil_springs_raw p s).allowable_length = 0) ∧
    ((calculate_soil_springs_raw p s).remaining_allowable =
      max 0 ((calculate_soil_springs_raw p s).allowable_stress -
        (calculate_soil_springs_raw p s).total_applied_stress)) ∧
    0 ≤ (calculate_soil_springs_raw p s).remaining_allowable ∧
    0 ≤ (calculate_soil_springs_results p s).remaining_allowable_stress := by
  refine ⟨?_, ?_, raw_remaining_def p s, ?_, ?_⟩
  · intro h
    refine ⟨?_, ?_⟩
    · rw [raw_allowable_length_def, if_neg (not_lt.mpr h)]
    · show pyRound2 (calculate_soil_springs_raw p s).allowable_length = 1000
      rw [raw_allowable_length_def, if_neg (not_lt.mpr h)]
      exact pyRound2_thousand
  · intro h1 h2
    rw [raw_allowable_length_def, if_pos h1, if_neg (not_lt.mpr h2)]
  · rw [raw_remaining_def]
    exact le_max_left _ _
  · show 0 ≤ pyRound2 (calculate_soil_springs_raw p s).remaining_allowable
    apply pyRound2_nonneg
    rw [raw_remaining_def]
    exact le_max_left _ _

/-- C6 witness: a cohesionless zero-friction soil gives zero longitudinal force
(sentinel length 1000), and a 10000 psi pressure exhausts the allowable axial
stress (length 0). -/
theorem numeric_degeneracy_handling_witness :
    ((calculate_soil_springs_raw pipe_default soil_zero).longitudinal_force ≤ 0 ∧
      (calculate_soil_springs_results pipe_default soil_zero).allowable_length = 1000) ∧
    (0 < (calculate_soil_springs_raw pipe_hp soil_ce).longitudinal_force ∧
      (calculate_soil_springs_raw pipe_hp soil_ce).allowable_stress -
          0.5 * (calculate_soil_springs_raw pipe_hp soil_ce).hoop_stress ≤ 0 ∧
      (calculate_soil_springs_raw pipe_hp soil_ce).allowable_length = 0) := by
  have hfA : (calculate_soil_springs_raw pipe_default soil_zero).longitudinal_force ≤ 0 := by
    rw [raw_force_def]
    norm_num [pipe_default, soil_zero, radians, Real.tan_zero]
  have hfB : 0 < (calculate_soil_springs_raw pipe_hp soil_ce).longitudinal_force := by
    rw [raw_force_def]
    norm_num [pipe_hp, soil_ce, radians, Real.tan_zero, min_def]
  have hcapB : (calculate_soil_springs_raw pipe_hp soil_ce).allowable_stress -
      0.5 * (calculate_soil_springs_raw pipe_hp soil_ce).hoop_stress ≤ 0 := by
    rw [raw_allowable_stress_def, raw_hoop_def]
    norm_num [pipe_hp, smys_values]
  exact ⟨⟨hfA, ((numeric_degeneracy_handling pipe_default soil_zero).1 hfA).2⟩,
    hfB, hcapB, (numeric_degeneracy_handling pipe_hp soil_ce).2.1 hfB hcapB⟩

/-- For soil parameters inside the data-model invariants (φ ∈ [0°, 90°],
non-negative cohesion, unit weight, depth of cover and diameter), the
longitudinal force computed by either direction branch is non-negative. -/
theorem raw_force_nonneg (p : PipeParams) (s : SoilDict)
    (hφ0 : 0 ≤ s.friction_angle) (hφ90 : s.friction_angle ≤ 90)
    (hc : 0 ≤ s.cohesion) (hγ : 0 ≤ s.unit_weight)
    (hdoc : 0 ≤ p.pipe_doc) (hod : 0 ≤ p.pipe_od) :
    0 ≤ (calculate_soil_springs_raw p s).longitudinal_force := by
  rw [raw_force_def]
  have hodft : 0 ≤ p.pipe_od / 12.0 := by
    apply div_nonneg hod
    norm_num
  by_cases hpath : p.pgd_path = "Parallel"
  · rw [if_pos hpath]
    have htan : 0 ≤ Real.tan (radians s.friction_angle) := by
      apply Real.tan_nonneg_of_nonneg_of_le_pi_div_two
      · rw [radians]
        apply div_nonneg (mul_nonneg hφ0 Real.pi_pos.le)
        norm_num
      · rw [radians]
        have hp := mul_nonneg (sub_nonneg.mpr hφ90) Real.pi_pos.le
        linarith
    have hadh : 0 ≤ (if s.cohesion > 0 then
        min 1.0 (0.5 * (1 + s.cohesion / 1000)) else 1.0) := by
      split_ifs with h
      · refine le_min (by norm_num) ?_
        have h1000 : 0 ≤ s.cohesion / 1000 := by
          apply div_nonneg hc
          norm_num
        linarith
      · norm_num
    have h1 : 0 ≤ Real.tan (radians s.friction_angle) * (s.unit_weight * p.pipe_doc) :=
      mul_nonneg htan (mul_nonneg hγ hdoc)
    exact mul_nonneg (mul_nonneg (add_nonneg h1 (mul_nonneg hadh hc)) (by norm_num)) hodft
  · rw [if_neg hpath]
    apply add_nonneg
    · exact mul_nonneg (mul_nonneg hc hodft) (by norm_num)
    · exact mul_nonneg (mul_nonneg (mul_nonneg (mul_nonneg (by norm_num) hγ)
        (sq_nonneg _)) (sq_nonneg _)) hodft

/-- With a positive wall thickness smaller than the pipe radius, the wall
cross-section area used by the engine is positive. -/
theorem pipe_area_pos (p : PipeParams) (hwt : 0 < p.pipe_wt)
    (hr : p.pipe_wt < p.pipe_od / 2) :
    0 < 3.14159 * ((p.pipe_od / 2.0) ^ 2 - (p.pipe_od / 2.0 - p.pipe_wt) ^ 2) := by
  have key : (p.pipe_od / 2.0) ^ 2 - (p.pipe_od / 2.0 - p.pipe_wt) ^ 2 =
      p.pipe_wt * (p.pipe_od - p.pipe_wt) := by ring
  rw [key]
  have hlt : p.pipe_wt < p.pipe_od - p.pipe_wt := by linarith
  exact mul_pos (by norm_num) (mul_pos hwt (by linarith))

/-- C7: for fixed pipe geometry, soil parameters (inside the data-model
invariants), grade, pressure and direction, the engine's axial stress is
non-decreasing in the length in the displacement zone; and for fixed
everything else (with positive wall thickness and positive inner radius), the
remaining allowable stress is non-increasing in the internal pressure. -/
theorem stress_monotonicity (p : PipeParams) (s : SoilDict)
    (hwt : 0 < p.pipe_wt) (hr : p.pipe_wt < p.pipe_od / 2)
    (hφ0 : 0 ≤ s.friction_angle) (hφ90 : s.friction_angle ≤ 90)
    (hc : 0 ≤ s.cohesion) (hγ : 0 ≤ s.unit_weight) (hdoc : 0 ≤ p.pipe_doc) :
    (∀ l1 l2 : ℝ, l1 ≤ l2 →
      (calculate_soil_springs_raw { p with pipe_length := l1 } s).axial_stress ≤
        (calculate_soil_springs_raw { p with pipe_length := l2 } s).axial_stress) ∧
    (∀ q1 q2 : ℝ, q1 ≤ q2 →
      (calculate_soil_springs_raw { p with internal_pressure := q2 } s).remaining_allowable ≤
        (calculate_soil_springs_raw { p with internal_pressure := q1 } s).remaining_allowable) := by
  have hod0 : 0 ≤ p.pipe_od := by linarith
  constructor
  · intro l1 l2 hl
    rw [raw_axial_def, raw_axial_def]
    dsimp only
    have hFeq : (calculate_soil_springs_raw { p with pipe_length := l1 } s).longitudinal_force =
        (calculate_soil_springs_raw { p with pipe_length := l2 } s).longitudinal_force := by
      rw [raw_force_def, raw_force_def]
    have hF : 0 ≤ (calculate_soil_springs_raw
        { p with pipe_length := l1 } s).longitudinal_force :=
      raw_force_nonneg _ _ hφ0 hφ90 hc hγ hdoc hod0
    rw [← hFeq]
    rw [div_le_div_right (pipe_area_pos p hwt hr)]
    exact mul_le_mul_of_nonneg_left hl hF
  · intro q1 q2 hq
    rw [raw_remaining_def, raw_remaining_def, raw_allowable_stress_def,
      raw_allowable_stress_def, raw_total_applied_def, raw_total_applied_def,
      raw_hoop_def, raw_hoop_def, raw_axial_def, raw_axial_def]
    dsimp only
    have hFeq : (calculate_soil_springs_raw { p with internal_pressure := q2 } s).longitudinal_force =
        (calculate_soil_springs_raw { p with internal_pressure := q1 } s).longitudinal_force := by
      rw [raw_force_def, raw_force_def]
    rw [hFeq]
    apply max_le_max le_rfl
    apply sub_le_sub_left
    apply add_le_add_left
    have hinner : 0 ≤ p.pipe_od / 2.0 - p.pipe_wt := by linarith
    have hmul : q1 * (p.pipe_od / 2.0 - p.pipe_wt) ≤ q2 * (p.pipe_od / 2.0 - p.pipe_wt) :=
      mul_le_mul_of_nonneg_right hq hinner
    have hdivd : q1 * (p.pipe_od / 2.0 - p.pipe_wt) / p.pipe_wt ≤
        q2 * (p.pipe_od / 2.0 - p.pipe_wt) / p.pipe_wt :=
      (div_le_div_right hwt).mpr hmul
    linarith

/-- C7 witness: the default pipe with φ = 30° soil, lengths 5 ≤ 10 and
pressures 1000 ≤ 1500. -/
theorem stress_monotonicity_witness :
    ((calculate_soil_springs_raw { pipe_default with pipe_length := 5 }
        ⟨30, 100, 125⟩).axial_stress ≤
      (calculate_soil_springs_raw { pipe_default with pipe_length := 10 }
        ⟨30, 100, 125⟩).axial_stress) ∧
    ((calculate_soil_springs_raw { pipe_default with internal_pressure := 1500 }
        ⟨30, 100, 125⟩).remaining_allowable ≤
      (calculate_soil_springs_raw { pipe_default with internal_pressure := 1000 }
        ⟨30, 100, 125⟩).remaining_allowable) := by
  have h := stress_monotonicity pipe_default ⟨30, 100, 125⟩
    (by norm_num [pipe_default]) (by norm_num [pipe_default])
    (by norm_num) (by norm_num) (by norm_num) (by norm_num)
    (by norm_num [pipe_default])
  exact ⟨h.1 5 10 (by norm_num), h.2 1000 1500 (by norm_num)⟩

/-- Head projection of `List.get` at explicit index 0. -/
theorem get_zero_cons (a : SoilLayer) (l : List SoilLayer)
    (h : 0 < (a :: l).length) : (a :: l).get ⟨0, h⟩ = a := rfl

/-- The cumulative top of the first layer is 0. -/
theorem cumTop_zero (layers : List SoilLayer) : cumTop layers 0 = 0 := by
  simp [cumTop]

/-- Shifting the cumulative top across a cons cell. -/
theorem cumTop_cons_succ (l : SoilLayer) (layers : List SoilLayer) (i : ℕ) :
    cumTop (l :: layers) (i + 1) = l.thickness + cumTop layers i := by
  simp [cumTop, List.take_succ_cons]

/-- The cumulative top of layer `i + 1` adds the thickness of layer `i`. -/
theorem cumTop_succ_eq (layers : List SoilLayer) (i : ℕ) (hi : i < layers.length) :
    cumTop layers (i + 1) = cumTop layers i + (layers.get ⟨i, hi⟩).thickness := by
  induction layers generalizing i with
  | nil => simp at hi
  | cons l layers ih =>
    match i with
    | 0 =>
      rw [cumTop_cons_succ, cumTop_zero, cumTop_zero, get_zero_cons]
      ring
    | i + 1 =>
      rw [cumTop_cons_succ, cumTop_cons_succ, ih i (by simpa using hi),
        List.get_cons_succ]
      ring

/-- With non-negative thicknesses, every cumulative top is at most the total
thickness. -/
theorem cumTop_le_total (layers : List SoilLayer)
    (hth : ∀ l ∈ layers, 0 ≤ l.thickness) (i : ℕ) :
    cumTop layers i ≤ totalThickness layers := by
  have hsplit : totalThickness layers =
      cumTop layers i + ((layers.drop i).map SoilLayer.thickness).sum := by
    rw [totalThickness, cumTop]
    conv_lhs => rw [← List.take_append_drop i layers]
    rw [List.map_append, List.sum_append]
  have hdrop : 0 ≤ ((layers.drop i).map SoilLayer.thickness).sum := by
    apply List.sum_nonneg
    intro x hx
    obtain ⟨l, hl, rfl⟩ := List.mem_map.mp hx
    exact hth l (List.mem_of_mem_drop hl)
  linarith

/-- The source's layer walk returns layer `i` when `i` is the first index whose
closed cumulative interval (shifted by the starting accumulator `c`)
contains `d`. -/
theorem layerWalk_eq_get (d : ℝ) (layers : List SoilLayer) :
    ∀ (c : ℝ) (i : ℕ) (hi : i < layers.length),
      (∀ j (hj : j < layers.length), j < i →
        ¬(c + cumTop layers j ≤ d ∧
          d ≤ c + cumTop layers j + (layers.get ⟨j, hj⟩).thickness)) →
      (c + cumTop layers i ≤ d ∧
        d ≤ c + cumTop layers i + (layers.get ⟨i, hi⟩).thickness) →
      layerWalk d layers c = some (layers.get ⟨i, hi⟩) := by
  induction layers with
  | nil => intro c i hi; simp at hi
  | cons l layers ih =>
    intro c i hi hmin hcont
    match i with
    | 0 =>
      rw [get_zero_cons] at hcont ⊢
      rw [cumTop_zero] at hcont
      simp only [layerWalk]
      rw [if_pos ⟨by linarith [hcont.1], by linarith [hcont.2]⟩]
    | i + 1 =>
      have hi' : i < layers.length := by simpa using hi
      simp only [layerWalk]
      have h0 := hmin 0 (by simp) (by omega)
      rw [get_zero_cons, cumTop_zero] at h0
      rw [if_neg (fun hcontra => h0 ⟨by linarith [hcontra.1], by linarith [hcontra.2]⟩)]
      rw [List.get_cons_succ]
      apply ih (c + l.thickness) i hi'
      · intro j hj hji
        have hjm := hmin (j + 1) (by simpa using Nat.succ_lt_succ hj) (by omega)
        rw [List.get_cons_succ, cumTop_cons_succ] at hjm
        exact fun hcontra => hjm ⟨by linarith [hcontra.1], by linarith [hcontra.2]⟩
      · rw [List.get_cons_succ, cumTop_cons_succ] at hcont
        exact ⟨by linarith [hcont.1], by linarith [hcont.2]⟩

/-- The source's layer walk returns nothing when no closed cumulative interval
contains `d`. -/
theorem layerWalk_eq_none (d : ℝ) (layers : List SoilLayer) :
    ∀ (c : ℝ),
      (∀ j (hj : j < layers.length),
        ¬(c + cumTop layers j ≤ d ∧
          d ≤ c + cumTop layers j + (layers.get ⟨j, hj⟩).thickness)) →
      layerWalk d layers c = none := by
  induction layers with
  | nil => intro c _; rfl
  | cons l layers ih =>
    intro c hall
    simp only [layerWalk]
    have h0 := hall 0 (by simp)
    rw [get_zero_cons, cumTop_zero] at h0
    rw [if_neg (fun hcontra => h0 ⟨by linarith [hcontra.1], by linarith [hcontra.2]⟩)]
    apply ih
    intro j hj
    have hjm := hall (j + 1) (by simpa using Nat.succ_lt_succ hj)
    rw [List.get_cons_succ, cumTop_cons_succ] at hjm
    exact fun hcontra => hjm ⟨by linarith [hcontra.1], by linarith [hcontra.2]⟩

/-- When the walk finds a layer, the conversion returns that layer's
parameters tagged with the at-depth provenance. -/
theorem convert_some_of_walk_some (cfg : SlopeConfiguration) (l0 : SoilLayer)
    (rest : List SoilLayer) (hL : cfg.soil_layers = l0 :: rest) (d : ℝ)
    (layer : SoilLayer) (hw : layerWalk d (l0 :: rest) 0 = some layer) :
    convert_slope_to_soil_params cfg (some d) =
      ⟨layer.friction_angle, layer.cohesion_effective, layer.unit_weight,
        SoilTypeTag.atDepth layer.name d⟩ := by
  unfold convert_slope_to_soil_params
  rw [hL]
  dsimp only
  rw [hw]

/-- When the walk finds no layer, the conversion returns the deepest layer's
parameters tagged as extrapolated. -/
theorem convert_some_of_walk_none (cfg : SlopeConfiguration) (l0 : SoilLayer)
    (rest : List SoilLayer) (hL : cfg.soil_layers = l0 :: rest) (d : ℝ)
    (hw : layerWalk d (l0 :: rest) 0 = none) :
    convert_slope_to_soil_params cfg (some d) =
      ⟨((l0 :: rest).getLast (List.cons_ne_nil l0 rest)).friction_angle,
        ((l0 :: rest).getLast (List.cons_ne_nil l0 rest)).cohesion_effective,
        ((l0 :: rest).getLast (List.cons_ne_nil l0 rest)).unit_weight,
        SoilTypeTag.extrapolated
          ((l0 :: rest).getLast (List.cons_ne_nil l0 rest)).name d⟩ := by
  unfold convert_slope_to_soil_params
  rw [hL]
  dsimp only
  rw [hw]

/-- C1 counterexample: with layer thicknesses 10, 20, 25, depth 10 — exactly
the boundary between the first and second layer — selects the *first* layer
(`Layer A`, φ = 20), not the second as the half-open-interval claim states:
the source tests the closed interval `current ≤ d ≤ current + thickness`. -/
theorem layer_at_depth_boundary_counterexample :
    convert_slope_to_soil_params cfg3 (some 10) =
      ⟨20, 100, 120, SoilTypeTag.atDepth "Layer A" 10⟩ ∧
    SoilTypeTag.atDepth "Layer A" (10 : ℝ) ≠ SoilTypeTag.atDepth "Layer B" 10 := by
  constructor
  · have hw : layerWalk 10
        [⟨"Layer A", 120, 200, 100, 20, 10⟩,
         ⟨"Layer B", 122, 250, 150, 25, 20⟩,
         ⟨"Layer C", 125, 300, 200, 30, 25⟩] 0 =
        some ⟨"Layer A", 120, 200, 100, 20, 10⟩ := by
      simp only [layerWalk]
      rw [if_pos]
      constructor <;> norm_num
    exact convert_some_of_walk_some cfg3 _ _ rfl 10 _ hw
  · simp

/-- C1 (amended): for every non-empty layer list and non-negative depth, the
lookup returns the first layer whose *closed* cumulative interval
`[top, top + thickness]` contains the depth — a depth exactly on a boundary
belongs to the layer *above* the boundary — and a depth strictly past the
bottom of the last layer returns the last layer's parameters tagged as
extrapolated. -/
theorem layer_at_depth_closed_interval_lookup (cfg : SlopeConfiguration)
    (l0 : SoilLayer) (rest : List SoilLayer) (hL : cfg.soil_layers = l0 :: rest)
    (d : ℝ) (hd : 0 ≤ d) (hth : ∀ l ∈ cfg.soil_layers, 0 < l.thickness) :
    (∀ i (hi : i < (l0 :: rest).length),
      (∀ j (hj : j < (l0 :: rest).length), j < i →
        ¬intervalContains (l0 :: rest) d ⟨j, hj⟩) →
      intervalContains (l0 :: rest) d ⟨i, hi⟩ →
      convert_slope_to_soil_params cfg (some d) =
        ⟨((l0 :: rest).get ⟨i, hi⟩).friction_angle,
          ((l0 :: rest).get ⟨i, hi⟩).cohesion_effective,
          ((l0 :: rest).get ⟨i, hi⟩).unit_weight,
          SoilTypeTag.atDepth ((l0 :: rest).get ⟨i, hi⟩).name d⟩) ∧
    (totalThickness (l0 :: rest) < d →
      convert_slope_to_soil_params cfg (some d) =
        ⟨((l0 :: rest).getLast (List.cons_ne_nil l0 rest)).friction_angle,
          ((l0 :: rest).getLast (List.cons_ne_nil l0 rest)).cohesion_effective,
          ((l0 :: rest).getLast (List.cons_ne_nil l0 rest)).unit_weight,
          SoilTypeTag.extrapolated
            ((l0 :: rest).getLast (List.cons_ne_nil l0 rest)).name d⟩) := by
  rw [hL] at hth
  constructor
  · intro i hi hmin hcont
    apply convert_some_of_walk_some cfg l0 rest hL d
    apply layerWalk_eq_get d (l0 :: rest) 0 i hi
    · intro j hj hji hcontra
      apply hmin j hj hji
      unfold intervalContains
      exact ⟨by linarith [hcontra.1], by linarith [hcontra.2]⟩
    · unfold intervalContains at hcont
      exact ⟨by linarith [hcont.1], by linarith [hcont.2]⟩
  · intro hdeep
    apply convert_some_of_walk_none cfg l0 rest hL d
    apply layerWalk_eq_none
    intro j hj hcontra
    have h1 := cumTop_succ_eq (l0 :: rest) j hj
    have h2 := cumTop_le_total (l0 :: rest) (fun l hl => (hth l hl).le) (j + 1)
    linarith [hcontra.2]

/-- C1 witness for the amended claim: `cfg3` (total thickness 55) at depth 100
extrapolates the deepest layer. -/
theorem layer_at_depth_closed_interval_lookup_witness :
    (0 : ℝ) ≤ 100 ∧ totalThickness cfg3.soil_layers < 100 ∧
    convert_slope_to_soil_params cfg3 (some 100) =
      ⟨30, 200, 125, SoilTypeTag.extrapolated "Layer C" 100⟩ := by
  have hth : ∀ l ∈ cfg3.soil_layers, 0 < l.thickness := by
    intro l hl
    simp only [cfg3, List.mem_cons, List.not_mem_nil, or_false] at hl
    rcases hl with rfl | rfl | rfl <;> norm_num
  have h := (layer_at_depth_closed_interval_lookup cfg3 _ _ rfl 100
    (by norm_num) hth).2 (by norm_num [totalThickness, cfg3])
  refine ⟨by norm_num, by norm_num [totalThickness, cfg3], ?_⟩
  rw [h]
  rfl

/-- C10: when no depth is supplied and the total thickness of the layers is
zero, the conversion returns the first layer's friction angle, effective
cohesion and unit weight with that layer's name as provenance, instead of
dividing by the zero total in the weighted average. -/
theorem zero_total_thickness_fallback (cfg : SlopeConfiguration) (l0 : SoilLayer)
    (rest : List SoilLayer) (hL : cfg.soil_layers = l0 :: rest)
    (htot : totalThickness cfg.soil_layers = 0) :
    convert_slope_to_soil_params cfg none =
      ⟨l0.friction_angle, l0.cohesion_effective, l0.unit_weight,
        SoilTypeTag.layerName l0.name⟩ := by
  unfold totalThickness at htot
  rw [hL] at htot
  unfold convert_slope_to_soil_params
  rw [hL]
  dsimp only
  rw [if_pos htot]

/-- C10 witness: a single zero-thickness layer. -/
theorem zero_total_thickness_fallback_witness :
    totalThickness (⟨"Config_0009",
        [⟨"Slope Material", 120, 200, 100, 25, 0⟩], 30⟩ :
          SlopeConfiguration).soil_layers = 0 ∧
    convert_slope_to_soil_params
        ⟨"Config_0009", [⟨"Slope Material", 120, 200, 100, 25, 0⟩], 30⟩ none =
      ⟨25, 100, 120, SoilTypeTag.layerName "Slope Material"⟩ := by
  refine ⟨by norm_num [totalThickness], ?_⟩
  rw [zero_total_thickness_fallback
    ⟨"Config_0009", [⟨"Slope Material", 120, 200, 100, 25, 0⟩], 30⟩
    ⟨"Slope Material", 120, 200, 100, 25, 0⟩ [] rfl (by norm_num [totalThickness])]

end EMPCO
